import Mathlib

/-!
# Verification of the cloud-blobstore pagination core

A shallow embedding of the HumanCellAtlas `cloud-blobstore` library:
the resumable paged-iteration protocol, the missing-multipart-part
finder, and the Google-Storage adapter (`cloud_blobstore/gs.py`).

Python exceptions are modelled by an explicit error type and fallible
operations return `Except`.  Machine integers of the source are plain
`Nat` (part numbers, sizes and page indices are small and non-negative
throughout the source).
-/

/-- The exception kinds visible in the source: the library's own
`BlobNotFoundError`, `BlobPagingError`, `BlobStoreTimeoutError` and
Python's `ValueError`/`AssertionError`, together with the provider-native
exceptions (`google.cloud.exceptions.NotFound`,
`requests.exceptions.ConnectTimeout` / `ReadTimeout`) that the library
translates or propagates. -/
inductive GsError where
  | blobNotFound (msg : String)
  | blobPaging (msg : String)
  | blobStoreTimeout (inner : GsError)
  | valueError (msg : String)
  | assertionError
  | notFound
  | connectTimeout
  | readTimeout
  | otherError (tag : String)
deriving DecidableEq, Repr

/-! ## The missing-multipart-part finder

`cloud_blobstore/s3.py` is not part of the sources at hand; the finder is
modelled from the specification (§4.2).  The provider's paginated
uploaded-parts listing is represented by the ascending list of uploaded
part numbers it denotes (the pages of `list_parts` concatenate, in
ascending `part_number` order, to exactly this list). -/

/-- Modelled from the spec: the lock-step merge loop of §4.2 "Algorithm"
for the missing `find_next_missing_parts` body.  `expected` is the pointer
over the expected sequence, `rc` the number of missing values still to
collect, `parts` the not-yet-consumed uploaded part numbers (ascending).
Whenever `expected` is below the next uploaded part number it is missing;
when they are equal both advance; an uploaded record below `expected`
(duplicate or below the search start) is skipped defensively.  The loop
stops once `rc` values were collected or `expected` passes `pc`. -/
def findLoop (pc expected rc : Nat) (parts : List Nat) : List Nat :=
  if pc < expected ∨ rc = 0 then []
  else
    match parts with
    | [] => expected :: findLoop pc (expected + 1) (rc - 1) []
    | p :: ps =>
      if expected < p then expected :: findLoop pc (expected + 1) (rc - 1) (p :: ps)
      else if p < expected then findLoop pc expected rc ps
      else findLoop pc (expected + 1) rc ps
termination_by (pc + 1 - expected) + parts.length
decreasing_by
  all_goals simp_wf
  all_goals omega

/-- Modelled from the spec: `find_next_missing_parts` of the missing
`cloud_blobstore/s3.py` (§4.2).  `uploaded` stands for the provider's
uploaded-parts listing (bucket / key / upload-id collapse to the listing
they denote).  Preconditions (§4.2 with §8 cases 5–6 as source of truth):
`search_start` beyond `part_count` combined with a non-trivial
`return_count` (≥ 2) is rejected with `ValueError` before any fetch;
`search_start = part_count + 1` with a trivial request legitimately
returns the empty result. -/
def find_next_missing_parts (uploaded : List Nat) (part_count search_start return_count : Nat) :
    Except GsError (List Nat) :=
  if part_count < search_start ∧ 2 ≤ return_count then
    .error (.valueError "search_start is beyond the expected part range")
  else
    .ok (findLoop part_count search_start return_count uploaded)

/-- The specification's description of the result (§4.2 public contract):
the ascending sequence of the first at most `return_count` integers of
`{search_start, …, part_count}` absent from the uploaded set. -/
def specMissing (uploaded : List Nat) (part_count search_start return_count : Nat) : List Nat :=
  ((List.range' search_start (part_count + 1 - search_start)).filter
    (fun x => decide (x ∉ uploaded))).take return_count

/-- The uploaded-parts set of §8 cases 3–4: exactly the multiples of 2000
up to 10000. -/
def uploadsBy2000 : List Nat := [2000, 4000, 6000, 8000, 10000]

/-! ## The resumable paged iterator

The generic `PagedIter` protocol lives in the package's `__init__.py`,
which is not among the sources at hand (only the Google-Storage adapter
`GSPagedIter` and the common tests are); it is modelled from the
specification (§3 "IterationCheckpoint", §4.1).  A listing is the
provider's current total ordering of keys together with the page size in
force (`k_page_max`); the opaque continuation token is modelled as the
page index it denotes. -/

/-- A provider listing: the ordered keys and the page size of each fetch.
The page size is positive (the source forwards `k_page_max` only when
given; a fetch never returns empty pages forever). -/
structure Listing where
  keys : List String
  pageSize : Nat
  pageSize_pos : 0 < pageSize

/-- Modelled from the spec: one provider round trip
(`fetch_page(filters, cursor)`, §6) — the items of the addressed page and
the continuation cursor, `none` when the listing is exhausted. -/
def fetchPage (l : Listing) (token : Option Nat) : List String × Option Nat :=
  let t := token.getD 0
  ((l.keys.drop (t * l.pageSize)).take l.pageSize,
    if l.keys.length ≤ (t + 1) * l.pageSize then none else some (t + 1))

/-- Modelled from the spec: draining the iterator from page `t` onwards —
each exhausted buffer triggers the next fetch until a page arrives without
a continuation cursor (§4.1 "Behavior"). -/
def iterFrom (l : Listing) (t : Nat) : List String :=
  let page := (l.keys.drop (t * l.pageSize)).take l.pageSize
  if l.keys.length ≤ (t + 1) * l.pageSize then page
  else page ++ iterFrom l (t + 1)
termination_by l.keys.length - t * l.pageSize
decreasing_by
  have hp := l.pageSize_pos
  simp only [Nat.succ_mul] at *
  omega

/-- Modelled from the spec: locating `start_after_key` in the first
fetched page — `none` when the key cannot be found, otherwise the items
of that page strictly after the key. -/
def dropThroughKey (key : String) : List String → Option (List String)
  | [] => none
  | x :: xs => if x = key then some xs else dropThroughKey key xs

/-- Modelled from the spec: the full item sequence produced by consuming
a fresh iterator constructed with checkpoint `(token, start_after_key)`
(§4.1).  The first page is fetched from `token`; when `start_after_key`
is set it must be located in that page — otherwise the iterator fails
with a paging error (§4.1 "Validation rule") — and production resumes
strictly after it. -/
def resumeItems (l : Listing) (token : Option Nat) (start_after_key : Option String) :
    Except GsError (List String) :=
  let t := token.getD 0
  let page := (fetchPage l token).1
  let next := (fetchPage l token).2
  match start_after_key with
  | none => .ok (iterFrom l t)
  | some key =>
    match dropThroughKey key page with
    | none => .error (.blobPaging ("marker not found: " ++ key))
    | some rest =>
      match next with
      | none => .ok rest
      | some u => .ok (rest ++ iterFrom l u)

/-- Modelled from the spec: the `(token, start_after_key)` checkpoint
readable from an iterator right after it yielded its `k`-th item
(`1 ≤ k`): the token that fetched the page holding that item (`none`
while still on the first page, as at construction) and the item's key
(§3 "IterationCheckpoint"). -/
def checkpointAfter (l : Listing) (k : Nat) : Option Nat × Option String :=
  let t := (k - 1) / l.pageSize
  (if t = 0 then none else some t, l.keys[k - 1]?)

/-! ## The Google-Storage adapter (`cloud_blobstore/gs.py`)

Buckets and the store's `bucket_map` are association lists; datetimes are
timestamps; blob payloads are byte lists.  The base64-to-hex transcoding
inside `compute_cloud_checksum` is an injective re-encoding with no
algorithmic content, so the model's `crc32c` field holds the transcoded
checksum directly. -/

/-- A stored GCS blob as the adapter reads it. -/
structure GSBlob where
  crc32c : String
  size : Nat
  time_created : Nat
  updated : Nat
  content_type : String
  metadata : List (String × String)
  generation : Nat
  content : List Nat
deriving DecidableEq, Repr

/-- A bucket: keys associated to blobs. -/
abbrev GSBucket := List (String × GSBlob)

/-- The adapter state: `bucket_map`, bucket names associated to buckets. -/
abbrev GSBlobStore := List (String × GSBucket)

/-- `GSBlobStore._ensure_bucket_loaded`: resolving a bucket name; the
Python client materialises a `Bucket` object lazily, so an unknown name
denotes an empty bucket. -/
def _ensure_bucket_loaded (store : GSBlobStore) (bucket : String) : GSBucket :=
  (store.lookup bucket).getD []

/-- `Bucket.get_blob` of the provider SDK: the blob, or `None` when the
key does not exist. -/
def get_blob (bucket_obj : GSBucket) (key : String) : Option GSBlob :=
  bucket_obj.lookup key

/-- `GSBlobStore._get_blob_obj` (gs.py lines 95–101): fetch the blob and
raise `BlobNotFoundError` when the provider reports no blob. -/
def _get_blob_obj (store : GSBlobStore) (bucket key : String) :
    Except GsError GSBlob :=
  match get_blob (_ensure_bucket_loaded store bucket) key with
  | none => .error (.blobNotFound ("Could not find gs://" ++ bucket ++ "/" ++ key))
  | some b => .ok b

/-- `GSBlobStore.compute_cloud_checksum`: the blob's crc32c re-encoded
(base64 → lowercase hex); the model stores the re-encoded form. -/
def compute_cloud_checksum (blob_obj : GSBlob) : String :=
  blob_obj.crc32c

/-- `GSBlobStore.get_user_metadata`. -/
def get_user_metadata (store : GSBlobStore) (bucket key : String) :
    Except GsError (List (String × String)) :=
  (_get_blob_obj store bucket key).map (fun b => b.metadata)

/-- `GSBlobStore.get_content_type`. -/
def get_content_type (store : GSBlobStore) (bucket key : String) :
    Except GsError String :=
  (_get_blob_obj store bucket key).map (fun b => b.content_type)

/-- `GSBlobStore.get_cloud_checksum`. -/
def get_cloud_checksum (store : GSBlobStore) (bucket key : String) :
    Except GsError String :=
  (_get_blob_obj store bucket key).map (fun b => compute_cloud_checksum b)

/-- `GSBlobStore.get_size`. -/
def get_size (store : GSBlobStore) (bucket key : String) :
    Except GsError Nat :=
  (_get_blob_obj store bucket key).map (fun b => b.size)

/-- `GSBlobStore.get_creation_date`. -/
def get_creation_date (store : GSBlobStore) (bucket key : String) :
    Except GsError Nat :=
  (_get_blob_obj store bucket key).map (fun b => b.time_created)

/-- `GSBlobStore.get_last_modified_date`. -/
def get_last_modified_date (store : GSBlobStore) (bucket key : String) :
    Except GsError Nat :=
  (_get_blob_obj store bucket key).map (fun b => b.updated)

/-- `GSBlobStore.generate_presigned_GET_url`: the SDK's signed URL for
the fetched blob, abstracted to its address. -/
def generate_presigned_GET_url (store : GSBlobStore) (bucket key : String) :
    Except GsError String :=
  (_get_blob_obj store bucket key).map (fun _ => "signed:gs://" ++ bucket ++ "/" ++ key)

/-- `GSBlobStore.get_copy_token`: asserts the expected checksum and
returns the blob generation. -/
def get_copy_token (store : GSBlobStore) (bucket key cloud_checksum : String) :
    Except GsError Nat :=
  match _get_blob_obj store bucket key with
  | .error e => .error e
  | .ok b =>
    if compute_cloud_checksum b = cloud_checksum then .ok b.generation
    else .error .assertionError

/-- `Blob.download_as_string` of the provider SDK: raises the native
`NotFound` when no blob exists at the key. -/
def download_as_string (bucket_obj : GSBucket) (key : String) :
    Except GsError (List Nat) :=
  match get_blob bucket_obj key with
  | none => .error .notFound
  | some b => .ok b.content

/-- `GSBlobStore.get` (gs.py lines 183–198): download the data,
translating the native `NotFound` into `BlobNotFoundError`. -/
def GSBlobStore.get (store : GSBlobStore) (bucket key : String) :
    Except GsError (List Nat) :=
  match download_as_string (_ensure_bucket_loaded store bucket) key with
  | .error .notFound =>
    .error (.blobNotFound ("Could not find gs://" ++ bucket ++ "/" ++ key))
  | r => r

/-- `Bucket.delete_blob` of the provider SDK: raises the native
`NotFound` when no blob exists at the key, else removes it. -/
def delete_blob (bucket_obj : GSBucket) (key : String) :
    Except GsError GSBucket :=
  if (get_blob bucket_obj key).isSome then
    .ok (bucket_obj.filter (fun kv => !(kv.1 == key)))
  else .error .notFound

/-- Replacing a bucket's contents in the store. -/
def update_bucket (store : GSBlobStore) (bucket : String) (b : GSBucket) :
    GSBlobStore :=
  if (store.lookup bucket).isSome then
    store.map (fun kv => if kv.1 = bucket then (kv.1, b) else kv)
  else (bucket, b) :: store

/-- `GSBlobStore.delete` (gs.py lines 171–181): catches the native
`NotFound` and returns `False` (the operation definitely deleted
nothing); on success Python falls through returning `None`. -/
def GSBlobStore.delete (store : GSBlobStore) (bucket key : String) :
    Except GsError (Option Bool × GSBlobStore) :=
  let bucket_obj := _ensure_bucket_loaded store bucket
  match delete_blob bucket_obj key with
  | .error .notFound => .ok (some false, store)
  | .error e => .error e
  | .ok bucket2 => .ok (none, update_bucket store bucket bucket2)

/-- `CatchTimeouts` (gs.py lines 14–20): the decorator wrapping every
adapter operation — the wrapped callable runs once; the transport's
`ConnectTimeout`/`ReadTimeout` are re-raised as `BlobStoreTimeoutError`
carrying the original exception, anything else passes through. -/
def CatchTimeouts {α : Type} (meth : Unit → Except GsError α) :
    Unit → Except GsError α :=
  fun u =>
    match meth u with
    | .error .connectTimeout => .error (.blobStoreTimeout .connectTimeout)
    | .error .readTimeout => .error (.blobStoreTimeout .readTimeout)
    | r => r

/-! ### Correctness of the merge loop -/

/-- The merge loop collects exactly the first `rc` members of the expected
range `{expected, …, pc}` that are absent from the (ascending) uploaded
listing. -/
theorem findLoop_eq (pc : Nat) (expected rc : Nat) (parts : List Nat) :
    parts.Pairwise (· ≤ ·) →
    findLoop pc expected rc parts
      = ((List.range' expected (pc + 1 - expected)).filter
          (fun x => decide (x ∉ parts))).take rc := by
  induction expected, rc, parts using findLoop.induct pc with
  | case1 expected rc parts h =>
    intro _
    rw [findLoop.eq_def, if_pos h]
    rcases h with h | h
    · have : pc + 1 - expected = 0 := by omega
      simp [this]
    · simp [h]
  | case2 expected rc h ih =>
    intro _
    rw [findLoop.eq_def, if_neg h]
    have h1 : pc + 1 - expected = (pc + 1 - (expected + 1)) + 1 := by omega
    have h2 : ∃ m, rc = m + 1 := ⟨rc - 1, by omega⟩
    obtain ⟨m, rfl⟩ := h2
    rw [h1, List.range'_succ, List.filter_cons_of_pos (by simp), List.take_succ_cons]
    simpa using ih (List.Pairwise.nil)
  | case3 expected rc h p ps hlt ih =>
    intro hs
    rw [findLoop.eq_def, if_neg h]
    simp only [if_pos hlt]
    have h1 : pc + 1 - expected = (pc + 1 - (expected + 1)) + 1 := by omega
    have h2 : ∃ m, rc = m + 1 := ⟨rc - 1, by omega⟩
    obtain ⟨m, rfl⟩ := h2
    have hmem : expected ∉ p :: ps := by
      intro hm
      rcases List.mem_cons.mp hm with rfl | hm
      · omega
      · have := (List.pairwise_cons.mp hs).1 _ hm
        omega
    rw [h1, List.range'_succ, List.filter_cons_of_pos (by simpa using hmem),
      List.take_succ_cons]
    simpa using ih hs
  | case4 expected rc h p ps h1 h2 ih =>
    intro hs
    rw [findLoop.eq_def, if_neg h]
    simp only [if_neg h1, if_pos h2]
    rw [ih (List.Pairwise.sublist (List.sublist_cons_self p ps) hs)]
    congr 1
    apply List.filter_congr
    intro x hx
    have hxe : expected ≤ x := (List.mem_range'_1.mp hx).1
    have : (x ∈ p :: ps) ↔ (x ∈ ps) := by
      rw [List.mem_cons]
      constructor
      · rintro (rfl | hm)
        · omega
        · exact hm
      · exact Or.inr
    simp [this]
  | case5 expected rc h p ps h1 h2 ih =>
    intro hs
    rw [findLoop.eq_def, if_neg h]
    simp only [if_neg h1, if_neg h2]
    have hpe : p = expected := by omega
    subst hpe
    rw [ih (List.Pairwise.sublist (List.sublist_cons_self p ps) hs)]
    have hr : pc + 1 - p = (pc + 1 - (p + 1)) + 1 := by omega
    rw [hr, List.range'_succ, List.filter_cons_of_neg (by simp)]
    congr 1
    apply List.filter_congr
    intro x hx
    have hxe : p + 1 ≤ x := (List.mem_range'_1.mp hx).1
    have : (x ∈ p :: ps) ↔ (x ∈ ps) := by
      rw [List.mem_cons]
      constructor
      · rintro (rfl | hm)
        · omega
        · exact hm
      · exact Or.inr
    simp [this]

/-- On a valid query, `find_next_missing_parts` succeeds with exactly the
specification's value. -/
theorem find_ok_eq (uploaded : List Nat) (part_count search_start return_count : Nat)
    (hs : uploaded.Pairwise (· ≤ ·))
    (hok : ¬(part_count < search_start ∧ 2 ≤ return_count)) :
    find_next_missing_parts uploaded part_count search_start return_count
      = Except.ok (specMissing uploaded part_count search_start return_count) := by
  rw [find_next_missing_parts, if_neg hok,
    findLoop_eq part_count search_start return_count uploaded hs]
  rfl

/-- Among `l`, the elements failing `p` number the length of `l` minus
those satisfying `p`. -/
theorem length_filter_not (p : Nat → Bool) (l : List Nat) :
    (l.filter (fun x => !(p x))).length = l.length - (l.filter p).length := by
  induction l with
  | nil => simp
  | cons a l ih =>
    have hle := List.length_filter_le p l
    simp only [List.filter_cons]
    cases h : p a
    · simp [h, ih]
      omega
    · simp [h, ih]

/-- Counting the multiples of 2000 inside `{s, …, s + n - 1}`. -/
theorem length_filter_dvd_range' (s n : Nat) (hs : 1 ≤ s) :
    ((List.range' s n).filter (fun x => decide (2000 ∣ x))).length
      = (s + n - 1) / 2000 - (s - 1) / 2000 := by
  induction n with
  | zero => simp
  | succ n ih =>
    rw [List.range'_concat, List.filter_append, List.length_append, ih]
    by_cases h : (2000 ∣ (s + n))
    · simp only [List.filter_cons, List.filter_nil]
      rw [if_pos (by simpa using h)]
      simp only [List.length_cons, List.length_nil]
      omega
    · simp only [List.filter_cons, List.filter_nil]
      rw [if_neg (by simpa using h)]
      simp only [List.length_nil]
      omega

/-- Counting the non-multiples of 2000 inside `{s, …, s + n - 1}`. -/
theorem length_filter_not_dvd_range' (s n : Nat) (hs : 1 ≤ s) :
    ((List.range' s n).filter (fun x => decide ¬(2000 ∣ x))).length
      = n - ((s + n - 1) / 2000 - (s - 1) / 2000) := by
  have hp : (fun x => decide ¬(2000 ∣ x)) = (fun x : Nat => !(decide (2000 ∣ x))) := by
    funext x
    exact decide_not
  rw [hp, length_filter_not, length_filter_dvd_range' s n hs, List.length_range']

/-- Within `{1, …, 10000}` the uploaded set of §8 cases 3–4 holds exactly
the multiples of 2000. -/
theorem mem_uploadsBy2000 (x : Nat) (h1 : 1 ≤ x) (h2 : x ≤ 10000) :
    x ∈ uploadsBy2000 ↔ 2000 ∣ x := by
  constructor
  · intro h
    fin_cases h <;> decide
  · rintro ⟨c, rfl⟩
    have hc1 : 1 ≤ c := by omega
    have hc2 : c ≤ 5 := by omega
    interval_cases c <;> decide

/-- The specification value for the §8 uploaded set, rewritten as a
divisibility filter. -/
theorem specMissing_by2000 (s n : Nat) (h1 : 1 ≤ s) (hn : s + n = 10001) :
    specMissing uploadsBy2000 10000 s 10000
      = (List.range' s n).filter (fun x => decide ¬(2000 ∣ x)) := by
  rw [specMissing]
  have he : 10000 + 1 - s = n := by omega
  rw [he, List.take_of_length_le
    (le_trans (List.length_filter_le _ _) (by rw [List.length_range']; omega))]
  apply List.filter_congr
  intro x hx
  have hb := List.mem_range'_1.mp hx
  exact decide_eq_decide.mpr (not_congr (mem_uploadsBy2000 x (by omega) (by omega)))

/-! ### Claims about the missing-part finder -/

/-- C2: for every valid query and every (ascending) uploaded listing the
result is the ascending sequence of the first at most `return_count`
integers of `{search_start, …, part_count}` absent from the uploaded part
numbers; if all parts of the range are present the result is empty with no
error, and if the uploaded listing is empty the result is the first
`return_count` integers of the range. -/
theorem find_next_missing_parts_postcondition
    (uploaded : List Nat) (hs : uploaded.Pairwise (· ≤ ·))
    (part_count search_start return_count : Nat)
    (_h1 : 1 ≤ search_start) (_h2 : search_start ≤ part_count + 1)
    (_hrc : 1 ≤ return_count)
    (hok : ¬(part_count < search_start ∧ 2 ≤ return_count)) :
    find_next_missing_parts uploaded part_count search_start return_count
      = Except.ok (specMissing uploaded part_count search_start return_count) ∧
    ((∀ x, search_start ≤ x → x ≤ part_count → x ∈ uploaded) →
      find_next_missing_parts uploaded part_count search_start return_count
        = Except.ok []) ∧
    (uploaded = [] →
      find_next_missing_parts uploaded part_count search_start return_count
        = Except.ok ((List.range' search_start (part_count + 1 - search_start)).take
            return_count)) := by
  refine ⟨find_ok_eq uploaded part_count search_start return_count hs hok, ?_, ?_⟩
  · intro hall
    rw [find_ok_eq uploaded part_count search_start return_count hs hok, specMissing]
    have hnil : (List.range' search_start (part_count + 1 - search_start)).filter
        (fun x => decide (x ∉ uploaded)) = [] := by
      rw [List.filter_eq_nil_iff]
      intro a ha
      have hb := List.mem_range'_1.mp ha
      simpa using hall a hb.1 (by omega)
    rw [hnil, List.take_nil]
  · rintro rfl
    rw [find_ok_eq [] part_count search_start return_count List.Pairwise.nil hok,
      specMissing]
    simp

/-- Witness for C2 at the concrete query `uploaded = [2]`,
`part_count = 3`, `search_start = 1`, `return_count = 2`. -/
theorem find_next_missing_parts_postcondition_witness :
    find_next_missing_parts [2] 3 1 2 = Except.ok [1, 3] := by
  have h := find_next_missing_parts_postcondition [2] (by decide) 3 1 2
    (by decide) (by decide) (by decide) (by omega)
  rw [h.1]
  rfl

/-- C4: a `search_start` outside `{1, …, part_count + 1}` together with a
non-trivial `return_count` is rejected with `ValueError`, independently of
the uploaded listing (hence before any network call); the concrete query
`search_start = 3`, `part_count = 2`, `return_count = 2` is rejected; and
`search_start = part_count + 1` is the last valid start, legitimately
returning an empty result (for a trivial request). -/
theorem find_next_missing_parts_invalid_argument
    (uploaded : List Nat) (part_count search_start return_count : Nat) :
    (part_count + 1 < search_start → 2 ≤ return_count →
      find_next_missing_parts uploaded part_count search_start return_count
        = Except.error
            (GsError.valueError "search_start is beyond the expected part range")) ∧
    (find_next_missing_parts uploaded 2 3 2
      = Except.error
          (GsError.valueError "search_start is beyond the expected part range")) ∧
    (uploaded.Pairwise (· ≤ ·) →
      find_next_missing_parts uploaded part_count (part_count + 1) 1
        = Except.ok []) := by
  refine ⟨?_, ?_, ?_⟩
  · intro ha hb
    rw [find_next_missing_parts, if_pos ⟨by omega, hb⟩]
  · rw [find_next_missing_parts, if_pos ⟨by omega, by omega⟩]
  · intro hs
    rw [find_ok_eq uploaded part_count (part_count + 1) 1 hs (by omega), specMissing]
    simp

/-- Witness for C4 at `uploaded = [1]`, `part_count = 2` with
`search_start = 10` (outside the universe), the concrete boundary query
`(3, 2, 2)`, and the valid empty boundary `(3, 2, 1)`. -/
theorem find_next_missing_parts_invalid_argument_witness :
    (find_next_missing_parts [1] 2 10 2
      = Except.error
          (GsError.valueError "search_start is beyond the expected part range")) ∧
    (find_next_missing_parts [1] 2 3 2
      = Except.error
          (GsError.valueError "search_start is beyond the expected part range")) ∧
    (find_next_missing_parts [1] 2 3 1 = Except.ok []) :=
  ⟨(find_next_missing_parts_invalid_argument [1] 2 10 2).1 (by decide) (by decide),
   (find_next_missing_parts_invalid_argument [1] 2 10 2).2.1,
   (find_next_missing_parts_invalid_argument [1] 2 3 1).2.2 (by decide)⟩

/-- C5: with `part_count = 10000` and exactly the multiples of 2000
uploaded, `return_count = 10000` and `search_start = 1` return exactly the
9995 integers of `{1, …, 10000}` not divisible by 2000 in ascending order,
and `search_start = 1001` returns exactly the 8995 missing integers of
`{1001, …, 10000}`. -/
theorem find_next_missing_parts_by2000 :
    (find_next_missing_parts uploadsBy2000 10000 1 10000
      = Except.ok ((List.range' 1 10000).filter (fun x => decide ¬(2000 ∣ x)))) ∧
    ((List.range' 1 10000).filter (fun x => decide ¬(2000 ∣ x))).length = 9995 ∧
    ((List.range' 1 10000).filter (fun x => decide ¬(2000 ∣ x))).Pairwise (· < ·) ∧
    (find_next_missing_parts uploadsBy2000 10000 1001 10000
      = Except.ok ((List.range' 1001 9000).filter (fun x => decide ¬(2000 ∣ x)))) ∧
    ((List.range' 1001 9000).filter (fun x => decide ¬(2000 ∣ x))).length = 8995 ∧
    ((List.range' 1001 9000).filter (fun x => decide ¬(2000 ∣ x))).Pairwise (· < ·) := by
  have hup : uploadsBy2000.Pairwise (· ≤ ·) := by decide
  refine ⟨?_, ?_, ?_, ?_, ?_, ?_⟩
  · rw [find_ok_eq uploadsBy2000 10000 1 10000 hup (by omega),
      specMissing_by2000 1 10000 (by omega) (by omega)]
  · rw [length_filter_not_dvd_range' 1 10000 (by omega)]
  · exact List.Pairwise.sublist (List.filter_sublist _) (List.pairwise_lt_range' 1 10000)
  · rw [find_ok_eq uploadsBy2000 10000 1001 10000 hup (by omega),
      specMissing_by2000 1001 9000 (by omega) (by omega)]
  · rw [length_filter_not_dvd_range' 1001 9000 (by omega)]
  · exact List.Pairwise.sublist (List.filter_sublist _) (List.pairwise_lt_range' 1001 9000)

/-- C6: with only part 1 uploaded and `part_count = 2`, every
`search_start ∈ {1, 2}` and every `return_count ≥ 1` yield `[2]`, while
`search_start = 3` with `return_count = 2` is rejected with `ValueError`. -/
theorem find_next_missing_parts_single_gap (return_count : Nat)
    (hrc : 1 ≤ return_count) :
    find_next_missing_parts [1] 2 1 return_count = Except.ok [2] ∧
    find_next_missing_parts [1] 2 2 return_count = Except.ok [2] ∧
    find_next_missing_parts [1] 2 3 2
      = Except.error
          (GsError.valueError "search_start is beyond the expected part range") := by
  refine ⟨?_, ?_, ?_⟩
  · rw [find_ok_eq [1] 2 1 return_count (by decide) (by omega), specMissing]
    have hf : (List.range' 1 (2 + 1 - 1)).filter
        (fun x => decide (x ∉ ([1] : List Nat))) = [2] := by decide
    rw [hf, List.take_of_length_le (by simp; omega)]
  · rw [find_ok_eq [1] 2 2 return_count (by decide) (by omega), specMissing]
    have hf : (List.range' 2 (2 + 1 - 2)).filter
        (fun x => decide (x ∉ ([1] : List Nat))) = [2] := by decide
    rw [hf, List.take_of_length_le (by simp; omega)]
  · rw [find_next_missing_parts, if_pos ⟨by omega, by omega⟩]

/-- Witness for C6 at `return_count = 1`. -/
theorem find_next_missing_parts_single_gap_witness :
    find_next_missing_parts [1] 2 1 1 = Except.ok [2] ∧
    find_next_missing_parts [1] 2 2 1 = Except.ok [2] ∧
    find_next_missing_parts [1] 2 3 2
      = Except.error
          (GsError.valueError "search_start is beyond the expected part range") :=
  find_next_missing_parts_single_gap 1 (by decide)

/-- C8: two calls of the finder with identical arguments against an
unchanged uploaded-parts listing return identical results (the finder is
stateless: its result is a function of its arguments alone). -/
theorem find_next_missing_parts_idempotent
    (uploaded uploaded' : List Nat) (part_count search_start return_count : Nat)
    (hunchanged : uploaded = uploaded') :
    find_next_missing_parts uploaded part_count search_start return_count
      = find_next_missing_parts uploaded' part_count search_start return_count := by
  rw [hunchanged]

/-- Witness for C8 at a concrete repeated query. -/
theorem find_next_missing_parts_idempotent_witness :
    find_next_missing_parts [1] 2 1 1 = find_next_missing_parts [1] 2 1 1 :=
  find_next_missing_parts_idempotent [1] [1] 2 1 1 rfl

/-! ### Claims about the paged iterator -/

/-- Consuming the pages from index `t` onwards yields exactly the keys
from position `t · pageSize` on. -/
theorem iterFrom_eq_drop (l : Listing) (t : Nat) :
    iterFrom l t = l.keys.drop (t * l.pageSize) := by
  induction t using iterFrom.induct l with
  | case1 t h =>
    rw [iterFrom.eq_def, if_pos h]
    have hm : (t + 1) * l.pageSize = l.pageSize + t * l.pageSize := by ring
    exact List.take_of_length_le (by rw [List.length_drop]; omega)
  | case2 t h ih =>
    rw [iterFrom.eq_def, if_neg h]
    have hm : (t + 1) * l.pageSize = t * l.pageSize + l.pageSize := by ring
    rw [ih, hm, ← List.drop_drop, List.take_append_drop]

/-- In a duplicate-free page holding `key` at index `r`, the skip stops
exactly after position `r`. -/
theorem dropThroughKey_eq (key : String) (xs : List String) (r : Nat)
    (hnd : xs.Nodup) (hr : xs[r]? = some key) :
    dropThroughKey key xs = some (xs.drop (r + 1)) := by
  induction xs generalizing r with
  | nil => simp at hr
  | cons x xs ih =>
    cases r with
    | zero =>
      simp only [List.getElem?_cons_zero, Option.some_inj] at hr
      subst hr
      simp [dropThroughKey]
    | succ r =>
      simp only [List.getElem?_cons_succ] at hr
      have hx : x ≠ key := by
        intro he
        subst he
        exact (List.nodup_cons.mp hnd).1 (List.getElem?_mem hr)
      rw [dropThroughKey, if_neg hx, ih r (List.nodup_cons.mp hnd).2 hr]
      rfl

/-- A page that does not hold `key` makes the skip fail. -/
theorem dropThroughKey_eq_none (key : String) (xs : List String)
    (h : key ∉ xs) :
    dropThroughKey key xs = none := by
  induction xs with
  | nil => rfl
  | cons x xs ih =>
    rw [dropThroughKey, if_neg (by intro he; exact h (he ▸ List.mem_cons_self x xs)),
      ih (fun hm => h (List.mem_cons_of_mem x hm))]

/-- A session started with the empty checkpoint produces the whole
listing. -/
theorem resume_none_eq (l : Listing) :
    resumeItems l none none = Except.ok l.keys := by
  rw [resumeItems.eq_def]
  simp only [Option.getD_none]
  rw [iterFrom_eq_drop]
  simp

/-- Resuming from the checkpoint read after item `k` produces exactly the
keys strictly after position `k`. -/
theorem resume_after_checkpoint (l : Listing) (hnd : l.keys.Nodup) (k : Nat)
    (hk1 : 1 ≤ k) (hk2 : k ≤ l.keys.length) :
    resumeItems l (checkpointAfter l k).1 (checkpointAfter l k).2
      = Except.ok (l.keys.drop k) := by
  have hp := l.pageSize_pos
  have hrp : (k - 1) % l.pageSize < l.pageSize := Nat.mod_lt _ hp
  have htr : ((k - 1) / l.pageSize) * l.pageSize + (k - 1) % l.pageSize = k - 1 := by
    rw [Nat.mul_comm]
    exact Nat.div_add_mod (k - 1) l.pageSize
  have hc1 : (checkpointAfter l k).1
      = if (k - 1) / l.pageSize = 0 then none else some ((k - 1) / l.pageSize) := rfl
  have hc2 : (checkpointAfter l k).2 = l.keys[k - 1]? := rfl
  obtain ⟨key, hkey⟩ : ∃ key, l.keys[k - 1]? = some key := by
    rw [List.getElem?_eq_getElem (by omega)]
    exact ⟨_, rfl⟩
  have htok : ((checkpointAfter l k).1).getD 0 = (k - 1) / l.pageSize := by
    rw [hc1]
    by_cases h : (k - 1) / l.pageSize = 0
    · simp [h]
    · simp [h]
  have hpage : (fetchPage l (checkpointAfter l k).1).1
      = (l.keys.drop (((k - 1) / l.pageSize) * l.pageSize)).take l.pageSize := by
    rw [fetchPage, htok]
  have hnext : (fetchPage l (checkpointAfter l k).1).2
      = if l.keys.length ≤ ((k - 1) / l.pageSize + 1) * l.pageSize then none
        else some ((k - 1) / l.pageSize + 1) := by
    rw [fetchPage, htok]
  have hpagekey : ((l.keys.drop (((k - 1) / l.pageSize) * l.pageSize)).take
      l.pageSize)[(k - 1) % l.pageSize]? = some key := by
    rw [List.getElem?_take, if_pos hrp, List.getElem?_drop, htr]
    exact hkey
  have hpnd : ((l.keys.drop (((k - 1) / l.pageSize) * l.pageSize)).take l.pageSize).Nodup :=
    List.Nodup.sublist ((List.take_sublist _ _).trans (List.drop_sublist _ _)) hnd
  have hdrop := dropThroughKey_eq key _ ((k - 1) % l.pageSize) hpnd hpagekey
  have hrest : ((l.keys.drop (((k - 1) / l.pageSize) * l.pageSize)).take
      l.pageSize).drop ((k - 1) % l.pageSize + 1)
      = (l.keys.drop k).take (l.pageSize - ((k - 1) % l.pageSize + 1)) := by
    rw [List.drop_take, List.drop_drop]
    have he : ((k - 1) / l.pageSize) * l.pageSize + ((k - 1) % l.pageSize + 1) = k := by
      omega
    rw [he]
  rw [resumeItems.eq_def, hc2, hkey]
  simp only [hpage, hnext, hdrop, hrest]
  by_cases hb : l.keys.length ≤ ((k - 1) / l.pageSize + 1) * l.pageSize
  · rw [if_pos hb]
    simp only []
    have hm : ((k - 1) / l.pageSize + 1) * l.pageSize
        = ((k - 1) / l.pageSize) * l.pageSize + l.pageSize := by ring
    have hlen : (l.keys.drop k).length ≤ l.pageSize - ((k - 1) % l.pageSize + 1) := by
      rw [List.length_drop]
      omega
    rw [List.take_of_length_le hlen]
  · rw [if_neg hb]
    simp only []
    rw [iterFrom_eq_drop]
    have hm : ((k - 1) / l.pageSize + 1) * l.pageSize
        = k + (l.pageSize - ((k - 1) % l.pageSize + 1)) := by
      have h2 : ((k - 1) / l.pageSize + 1) * l.pageSize
          = ((k - 1) / l.pageSize) * l.pageSize + l.pageSize := by ring
      omega
    rw [hm, ← List.drop_drop, List.take_append_drop]

/-- C1: for every listing (any page size) and every split point `k`,
consuming a fresh session fully yields the same items in the same order
as consuming `k` items, reading the `(token, start_after_key)` checkpoint,
and draining a fresh iterator constructed from it: the two sessions
concatenate exactly to the full listing — no duplicate, no gap. -/
theorem paged_iter_checkpoint_concatenation (l : Listing) (hnd : l.keys.Nodup)
    (k : Nat) (hk1 : 1 ≤ k) (hk2 : k ≤ l.keys.length) :
    ∃ full rest,
      resumeItems l none none = Except.ok full ∧
      resumeItems l (checkpointAfter l k).1 (checkpointAfter l k).2
        = Except.ok rest ∧
      full.take k ++ rest = full ∧
      full = l.keys :=
  ⟨l.keys, l.keys.drop k, resume_none_eq l,
    resume_after_checkpoint l hnd k hk1 hk2, List.take_append_drop k l.keys, rfl⟩

/-- Witness for C1: a five-key listing with page size 2, split after the
third item. -/
theorem paged_iter_checkpoint_concatenation_witness :
    ∃ full rest,
      resumeItems ⟨["a", "b", "c", "d", "e"], 2, by omega⟩ none none
        = Except.ok full ∧
      resumeItems ⟨["a", "b", "c", "d", "e"], 2, by omega⟩
          (checkpointAfter ⟨["a", "b", "c", "d", "e"], 2, by omega⟩ 3).1
          (checkpointAfter ⟨["a", "b", "c", "d", "e"], 2, by omega⟩ 3).2
        = Except.ok rest ∧
      full.take 3 ++ rest = full ∧
      full = ["a", "b", "c", "d", "e"] :=
  paged_iter_checkpoint_concatenation ⟨["a", "b", "c", "d", "e"], 2, by omega⟩
    (by decide) 3 (by decide) (by decide)

/-- C3: constructing and consuming an iterator whose `start_after_key` is
not present in the listing's current first page fetch fails with the
paging error — it neither silently restarts from the beginning nor
silently yields any (possibly empty) item sequence. -/
theorem paged_iter_invalid_start_after_key (l : Listing) (token : Option Nat)
    (key : String) (h : key ∉ (fetchPage l token).1) :
    resumeItems l token (some key)
      = Except.error (GsError.blobPaging ("marker not found: " ++ key)) ∧
    ∀ items, resumeItems l token (some key) ≠ Except.ok items := by
  have hd : dropThroughKey key (fetchPage l token).1 = none :=
    dropThroughKey_eq_none key _ h
  have he : resumeItems l token (some key)
      = Except.error (GsError.blobPaging ("marker not found: " ++ key)) := by
    rw [resumeItems.eq_def]
    simp only [hd]
  exact ⟨he, fun items hok => by rw [he] at hok; exact Except.noConfusion hok⟩

/-- Witness for C3: the key `zz` is absent from the first page of a
two-key listing. -/
theorem paged_iter_invalid_start_after_key_witness :
    resumeItems ⟨["a", "b"], 1, by omega⟩ none (some "zz")
      = Except.error (GsError.blobPaging ("marker not found: " ++ "zz")) ∧
    ∀ items, resumeItems ⟨["a", "b"], 1, by omega⟩ none (some "zz")
      ≠ Except.ok items :=
  paged_iter_invalid_start_after_key ⟨["a", "b"], 1, by omega⟩ none "zz" (by decide)

/-! ### Claims about the Google-Storage adapter -/

/-- C7: for every wrapped operation, a transport timeout
(`ConnectTimeout` or `ReadTimeout`) surfaces as the single stable
`BlobStoreTimeoutError` kind; every other collaborator failure propagates
unmodified; a success is returned as is (the wrapper invokes the wrapped
callable exactly once — no retry). -/
theorem catch_timeouts_translation {α : Type} (meth : Unit → Except GsError α) :
    (∀ e, meth () = .error e → (e = .connectTimeout ∨ e = .readTimeout) →
      CatchTimeouts meth () = .error (.blobStoreTimeout e)) ∧
    (∀ e, meth () = .error e → e ≠ .connectTimeout → e ≠ .readTimeout →
      CatchTimeouts meth () = .error e) ∧
    (∀ a, meth () = .ok a → CatchTimeouts meth () = .ok a) := by
  refine ⟨?_, ?_, ?_⟩
  · rintro e he (rfl | rfl) <;> simp [CatchTimeouts, he]
  · intro e he h1 h2
    cases e <;> simp_all [CatchTimeouts]
  · intro a ha
    simp [CatchTimeouts, ha]

/-- Witness for C7: a read timeout is translated, a not-found error and a
success pass through. -/
theorem catch_timeouts_translation_witness :
    CatchTimeouts (fun _ => (Except.error GsError.readTimeout : Except GsError Unit)) ()
      = Except.error (GsError.blobStoreTimeout GsError.readTimeout) ∧
    CatchTimeouts (fun _ => (Except.error (GsError.blobNotFound "k") : Except GsError Unit)) ()
      = Except.error (GsError.blobNotFound "k") ∧
    CatchTimeouts (fun _ => (Except.ok () : Except GsError Unit)) ()
      = Except.ok () :=
  ⟨(catch_timeouts_translation _).1 _ rfl (Or.inr rfl),
    (catch_timeouts_translation _).2.1 _ rfl (by decide) (by decide),
    (catch_timeouts_translation _).2.2 () rfl⟩

/-- C9: when no blob exists at a key, `GSBlobStore.get` and every
accessor routed through `_get_blob_obj` raise `BlobNotFoundError` — no
null value, no native `NotFound` leaking out. -/
theorem gs_missing_blob_accessors_raise_not_found
    (store : GSBlobStore) (bucket key : String)
    (h : get_blob (_ensure_bucket_loaded store bucket) key = none) :
    GSBlobStore.get store bucket key
      = Except.error (GsError.blobNotFound
          ("Could not find gs://" ++ bucket ++ "/" ++ key)) ∧
    get_user_metadata store bucket key
      = Except.error (GsError.blobNotFound
          ("Could not find gs://" ++ bucket ++ "/" ++ key)) ∧
    get_content_type store bucket key
      = Except.error (GsError.blobNotFound
          ("Could not find gs://" ++ bucket ++ "/" ++ key)) ∧
    get_cloud_checksum store bucket key
      = Except.error (GsError.blobNotFound
          ("Could not find gs://" ++ bucket ++ "/" ++ key)) ∧
    get_size store bucket key
      = Except.error (GsError.blobNotFound
          ("Could not find gs://" ++ bucket ++ "/" ++ key)) ∧
    get_creation_date store bucket key
      = Except.error (GsError.blobNotFound
          ("Could not find gs://" ++ bucket ++ "/" ++ key)) ∧
    get_last_modified_date store bucket key
      = Except.error (GsError.blobNotFound
          ("Could not find gs://" ++ bucket ++ "/" ++ key)) ∧
    generate_presigned_GET_url store bucket key
      = Except.error (GsError.blobNotFound
          ("Could not find gs://" ++ bucket ++ "/" ++ key)) ∧
    ∀ c, get_copy_token store bucket key c
      = Except.error (GsError.blobNotFound
          ("Could not find gs://" ++ bucket ++ "/" ++ key)) := by
  have hobj : _get_blob_obj store bucket key
      = Except.error (GsError.blobNotFound
          ("Could not find gs://" ++ bucket ++ "/" ++ key)) := by
    simp [_get_blob_obj, h]
  have hdl : download_as_string (_ensure_bucket_loaded store bucket) key
      = Except.error GsError.notFound := by
    simp [download_as_string, h]
  refine ⟨?_, ?_, ?_, ?_, ?_, ?_, ?_, ?_, ?_⟩
  · simp [GSBlobStore.get, hdl]
  · simp [get_user_metadata, hobj, Except.map]
  · simp [get_content_type, hobj, Except.map]
  · simp [get_cloud_checksum, hobj, Except.map]
  · simp [get_size, hobj, Except.map]
  · simp [get_creation_date, hobj, Except.map]
  · simp [get_last_modified_date, hobj, Except.map]
  · simp [generate_presigned_GET_url, hobj, Except.map]
  · intro c
    simp [get_copy_token, hobj]

/-- Witness for C9: the empty store holds no blob at all. -/
theorem gs_missing_blob_accessors_raise_not_found_witness :
    GSBlobStore.get [] "b" "k"
      = Except.error (GsError.blobNotFound
          ("Could not find gs://" ++ "b" ++ "/" ++ "k")) ∧
    get_user_metadata [] "b" "k"
      = Except.error (GsError.blobNotFound
          ("Could not find gs://" ++ "b" ++ "/" ++ "k")) ∧
    get_content_type [] "b" "k"
      = Except.error (GsError.blobNotFound
          ("Could not find gs://" ++ "b" ++ "/" ++ "k")) ∧
    get_cloud_checksum [] "b" "k"
      = Except.error (GsError.blobNotFound
          ("Could not find gs://" ++ "b" ++ "/" ++ "k")) ∧
    get_size [] "b" "k"
      = Except.error (GsError.blobNotFound
          ("Could not find gs://" ++ "b" ++ "/" ++ "k")) ∧
    get_creation_date [] "b" "k"
      = Except.error (GsError.blobNotFound
          ("Could not find gs://" ++ "b" ++ "/" ++ "k")) ∧
    get_last_modified_date [] "b" "k"
      = Except.error (GsError.blobNotFound
          ("Could not find gs://" ++ "b" ++ "/" ++ "k")) ∧
    generate_presigned_GET_url [] "b" "k"
      = Except.error (GsError.blobNotFound
          ("Could not find gs://" ++ "b" ++ "/" ++ "k")) ∧
    ∀ c, get_copy_token [] "b" "k" c
      = Except.error (GsError.blobNotFound
          ("Could not find gs://" ++ "b" ++ "/" ++ "k")) :=
  gs_missing_blob_accessors_raise_not_found [] "b" "k" rfl

/-- C10: `GSBlobStore.delete` of a missing key returns `False` and raises
no error; deleting an existing key succeeds returning Python's `None`
(a non-`False` value). -/
theorem gs_delete_missing_key_returns_false
    (store : GSBlobStore) (bucket key : String) :
    (get_blob (_ensure_bucket_loaded store bucket) key = none →
      GSBlobStore.delete store bucket key = Except.ok (some false, store)) ∧
    (∀ blob, get_blob (_ensure_bucket_loaded store bucket) key = some blob →
      GSBlobStore.delete store bucket key
        = Except.ok (none,
            update_bucket store bucket
              ((_ensure_bucket_loaded store bucket).filter
                (fun kv => !(kv.1 == key))))) := by
  constructor
  · intro h
    rw [GSBlobStore.delete]
    simp only [delete_blob, h, Option.isSome_none, Bool.false_eq_true, if_false]
  · intro blob h
    rw [GSBlobStore.delete]
    simp only [delete_blob, h, Option.isSome_some, if_true]

/-- Witness for C10: a store with one blob under `"k"`: deleting `"x"`
returns `False` leaving the store alone, deleting `"k"` returns `None`. -/
theorem gs_delete_missing_key_returns_false_witness :
    (GSBlobStore.delete [("b", [("k", GSBlob.mk "c" 1 0 0 "t" [] 1 [])])] "b" "x"
      = Except.ok (some false, [("b", [("k", GSBlob.mk "c" 1 0 0 "t" [] 1 [])])])) ∧
    (GSBlobStore.delete [("b", [("k", GSBlob.mk "c" 1 0 0 "t" [] 1 [])])] "b" "k"
      = Except.ok (none,
          update_bucket [("b", [("k", GSBlob.mk "c" 1 0 0 "t" [] 1 [])])] "b"
            ((_ensure_bucket_loaded
                [("b", [("k", GSBlob.mk "c" 1 0 0 "t" [] 1 [])])] "b").filter
              (fun kv => !(kv.1 == "k"))))) :=
  ⟨(gs_delete_missing_key_returns_false
      [("b", [("k", GSBlob.mk "c" 1 0 0 "t" [] 1 [])])] "b" "x").1 rfl,
    (gs_delete_missing_key_returns_false
      [("b", [("k", GSBlob.mk "c" 1 0 0 "t" [] 1 [])])] "b" "k").2
      (GSBlob.mk "c" 1 0 0 "t" [] 1 []) rfl⟩
